import Mathlib

/-!
Verification development for the Simplified-TCAS repository.

The Python source is shallowly embedded over exact rationals.  Floating
point values become rationals; Python None-able values become Option;
Python float("inf") values (tau, vertical tau, running minima) become the
two-point extension ExtQ of the rationals.

The source compares Euclidean norms (norm, math.hypot) only against
nonnegative quantities, so every such comparison is embedded as the
equivalent comparison of squares: for a, b greater or equal to 0 we have
a <= b iff a*a <= b*b.  Functions returning a norm (d_cpa, horiz_m)
therefore return the squared value here, and every threshold they are
compared against is squared at the comparison site.
-/

/-- Vec2 from tcas/math_utils.py, over exact rationals. -/
abbrev Q2 := ℚ × ℚ

/-- Function dot from tcas/math_utils.py. -/
def dot (a b : Q2) : ℚ := a.1 * b.1 + a.2 * b.2

/-- Squared Euclidean norm: the square of norm(a) = math.hypot(a0, a1)
from tcas/math_utils.py. -/
def sqnorm (a : Q2) : ℚ := a.1 * a.1 + a.2 * a.2

/-- Rationals extended with plus infinity, embedding Python's
float("inf") results (non-closing tau, vertical tau with negligible
relative vertical speed, initial running minima). -/
inductive ExtQ where
  | fin : ℚ → ExtQ
  | inf : ExtQ
deriving DecidableEq, Repr

/-- Comparison q < x for a finite rational against an extended rational;
everything finite is below inf. -/
def ExtQ.qlt (q : ℚ) (x : ExtQ) : Bool :=
  match x with
  | .fin y => decide (q < y)
  | .inf => true

/-- Order on extended rationals (inf is the top element). -/
def ExtQ.le (x y : ExtQ) : Bool :=
  match x, y with
  | _, .inf => true
  | .inf, .fin _ => false
  | .fin a, .fin b => decide (a ≤ b)

/-- AdvisoryType enum from tcas/models.py (14 variants). -/
inductive AdvisoryType where
  | CLEAR
  | TA
  | RA_CLIMB
  | RA_DESCEND
  | RA_MAINTAIN
  | RA_INCREASE_CLIMB
  | RA_INCREASE_DESCEND
  | RA_REDUCE_CLIMB
  | RA_REDUCE_DESCEND
  | RA_CROSSING_CLIMB
  | RA_CROSSING_DESCEND
  | RA_DO_NOT_CLIMB
  | RA_DO_NOT_DESCEND
deriving DecidableEq, Repr

/-- Python test kind.name.startswith("RA_"): true exactly for the twelve
RA variants. -/
def AdvisoryType.isRA : AdvisoryType → Bool
  | .CLEAR => false
  | .TA => false
  | _ => true

/-- Python substring test "DESCEND" in kind.name, total over the enum. -/
def AdvisoryType.containsDESCEND : AdvisoryType → Bool
  | .RA_DESCEND => true
  | .RA_INCREASE_DESCEND => true
  | .RA_REDUCE_DESCEND => true
  | .RA_CROSSING_DESCEND => true
  | .RA_DO_NOT_DESCEND => true
  | _ => false

-- ================= config.py constants =================

/-- Constant NM_TO_M from config.py. -/
def NM_TO_M : ℚ := 1852

/-- Constant HMD_RA_M = 1.3 * NM_TO_M from config.py. -/
def HMD_RA_M : ℚ := (1.3 : ℚ) * NM_TO_M

/-- Constant GROUND_ALT_FT from config.py. -/
def GROUND_ALT_FT : ℚ := 50

/-- Constant RA_TOTAL_INHIBIT_ALT_FT from config.py. -/
def RA_TOTAL_INHIBIT_ALT_FT : ℚ := 1000

/-- Constant NMAC_HORZ_M = 0.3 * NM_TO_M from config.py. -/
def NMAC_HORZ_M : ℚ := (0.3 : ℚ) * NM_TO_M

/-- Constant NMAC_VERT_FT from config.py. -/
def NMAC_VERT_FT : ℚ := 300

/-- Constant CROSSING_ALT_FT from tcas/threat.py. -/
def CROSSING_ALT_FT : ℚ := 250

/-- Local constant CLEAR_RANGE_M = 1852 * 13 from classify_contact. -/
def CLEAR_RANGE_M : ℚ := 1852 * 13

/-- Thresholds dictionary returned by config.get_sl_thresholds.  Fields
that the source guards with "is not None" are Options.  The source dict
never carries a key "ra_alim_ft", so th.get("ra_alim_ft") yields None;
the field ra_alim_ft embeds that dictionary lookup. -/
structure SLThresholds where
  sl : Option ℕ
  ta_tau : Option ℚ
  ra_tau : Option ℚ
  ta_dmod_m : Option ℚ
  ra_dmod_m : Option ℚ
  ta_zthr_ft : ℚ
  ra_zthr_ft : Option ℚ
  ra_alim_ft : Option ℚ
deriving DecidableEq, Repr

/-- Function get_sl_thresholds from config.py: the first-match linear
scan over SENSITIVITY_LEVELS unrolled into its seven ordered band tests
(each band is [alt_min, alt_max)), with DMOD values converted from
nautical miles to meters at lookup time, followed by the legacy fallback
row.  The dictionary produced by the source has no "ra_alim_ft" key, so
ra_alim_ft is none in every branch. -/
def get_sl_thresholds (own_alt_ft : ℚ) : SLThresholds :=
  if 0 ≤ own_alt_ft ∧ own_alt_ft < 1000 then
    ⟨some 2, some 20, none, some ((0.30 : ℚ) * NM_TO_M), none, 850, none, none⟩
  else if 1000 ≤ own_alt_ft ∧ own_alt_ft < 2350 then
    ⟨some 3, some 25, some 15, some ((0.33 : ℚ) * NM_TO_M), some ((0.20 : ℚ) * NM_TO_M), 850, some 600, none⟩
  else if 2350 ≤ own_alt_ft ∧ own_alt_ft < 5000 then
    ⟨some 4, some 30, some 20, some ((0.48 : ℚ) * NM_TO_M), some ((0.35 : ℚ) * NM_TO_M), 850, some 600, none⟩
  else if 5000 ≤ own_alt_ft ∧ own_alt_ft < 10000 then
    ⟨some 5, some 40, some 25, some ((0.75 : ℚ) * NM_TO_M), some ((0.55 : ℚ) * NM_TO_M), 850, some 600, none⟩
  else if 10000 ≤ own_alt_ft ∧ own_alt_ft < 20000 then
    ⟨some 6, some 45, some 30, some ((1.00 : ℚ) * NM_TO_M), some ((0.80 : ℚ) * NM_TO_M), 850, some 600, none⟩
  else if 20000 ≤ own_alt_ft ∧ own_alt_ft < 42000 then
    ⟨some 7, some 48, some 35, some ((1.30 : ℚ) * NM_TO_M), some ((1.10 : ℚ) * NM_TO_M), 850, some 700, none⟩
  else if 42000 ≤ own_alt_ft ∧ own_alt_ft < 999999 then
    ⟨some 7, some 48, some 35, some ((1.30 : ℚ) * NM_TO_M), some ((1.10 : ℚ) * NM_TO_M), 1200, some 800, none⟩
  else
    ⟨none, some 35, some 25, some 1200, some 900, 850, some 700, none⟩

-- ================= Geometry engine (tcas/threat.py) =================

/-- Function closing_tau_and_dcpA from tcas/threat.py, with the returned
miss distance squared (see file header): when the squared relative speed
is at most 1e-6 it returns (inf, |rel_pos| squared); otherwise
tau = -(rel_pos . rel_vel) / |rel_vel|^2 and the second component is the
square of |rel_pos + rel_vel * tau|. -/
def closing_tau_and_dcpa_sq (rel_pos_m rel_vel_mps : Q2) : ExtQ × ℚ :=
  let v2 := dot rel_vel_mps rel_vel_mps
  if v2 ≤ (1e-6 : ℚ) then (.inf, sqnorm rel_pos_m)
  else
    let tau := -(dot rel_pos_m rel_vel_mps) / v2
    (.fin tau,
      sqnorm (rel_pos_m.1 + rel_vel_mps.1 * tau, rel_pos_m.2 + rel_vel_mps.2 * tau))


-- ================= Threat classifier (tcas/threat.py) =================

/-- Vertical tau local variable of classify_contact: with
rel_vs_fpm = rel_climb_fps * 60, if its magnitude exceeds 1e-3 then
vert_tau = |rel_alt_ft| / |rel_vs_fpm| * 60, else float("inf"). -/
def vert_tau_s (rel_alt_ft rel_climb_fps : ℚ) : ExtQ :=
  let rel_vs_fpm := rel_climb_fps * 60
  if |rel_vs_fpm| > (1e-3 : ℚ) then .fin (|rel_alt_ft| / |rel_vs_fpm| * 60)
  else .inf

/-- Local variable range_ok_ta of classify_contact:
(ta_tau is not None and tau <= ta_tau) or
(ta_dmod is not None and d_cpa <= ta_dmod); the d_cpa comparison is by
squares, d2 being the squared miss distance. -/
def range_ok_ta (th : SLThresholds) (tau d2 : ℚ) : Bool :=
  (match th.ta_tau with
   | some t => decide (tau ≤ t)
   | none => false)
  || (match th.ta_dmod_m with
      | some dm => decide (d2 ≤ dm * dm)
      | none => false)

/-- Local variable vert_ok_ta of classify_contact:
(ta_tau is not None and vert_tau <= ta_tau) or
(abs(rel_alt_ft) <= ta_zthr); an infinite vert_tau fails the first
disjunct. -/
def vert_ok_ta (th : SLThresholds) (rel_alt_ft rel_climb_fps : ℚ) : Bool :=
  (match th.ta_tau, vert_tau_s rel_alt_ft rel_climb_fps with
   | some t, .fin vt => decide (vt ≤ t)
   | _, _ => false)
  || decide (|rel_alt_ft| ≤ th.ta_zthr_ft)

/-- Local variable is_ta of classify_contact: the TA envelope. -/
def ta_envelope (th : SLThresholds) (tau d2 rel_alt_ft rel_climb_fps : ℚ) : Bool :=
  range_ok_ta th tau d2 && vert_ok_ta th rel_alt_ft rel_climb_fps

/-- Local variable predicted_miss_ft of classify_contact: defined only
when both ra_tau and ra_alim are present, as
|rel_alt_ft + rel_climb_fps * ra_tau|. -/
def predicted_miss_ft (th : SLThresholds) (rel_alt_ft rel_climb_fps : ℚ) : Option ℚ :=
  match th.ra_tau, th.ra_alim_ft with
  | some rt, some _ => some |rel_alt_ft + rel_climb_fps * rt|
  | _, _ => none

/-- Local variable alim_violation of classify_contact:
predicted_miss_ft is not None and ra_alim is not None and
predicted_miss_ft < ra_alim. -/
def alim_violation (th : SLThresholds) (rel_alt_ft rel_climb_fps : ℚ) : Bool :=
  match predicted_miss_ft th rel_alt_ft rel_climb_fps, th.ra_alim_ft with
  | some pm, some al => decide (pm < al)
  | _, _ => false

/-- Local variable base_is_ra of classify_contact before the
low-altitude forcing: false when any of ra_tau, ra_dmod, ra_zthr is
None, else (tau <= ra_tau or d_cpa <= ra_dmod) and
(vert_tau <= ra_tau or |rel_alt| <= ra_zthr or alim_violation). -/
def ra_base_envelope (th : SLThresholds) (tau d2 rel_alt_ft rel_climb_fps : ℚ) : Bool :=
  match th.ra_tau, th.ra_dmod_m, th.ra_zthr_ft with
  | some rt, some rd, some rz =>
      let range_ok_ra := decide (tau ≤ rt) || decide (d2 ≤ rd * rd)
      let vert_ok_ra :=
        (match vert_tau_s rel_alt_ft rel_climb_fps with
         | .fin vt => decide (vt ≤ rt)
         | .inf => false)
        || decide (|rel_alt_ft| ≤ rz)
        || alim_violation th rel_alt_ft rel_climb_fps
      range_ok_ra && vert_ok_ra
  | _, _, _ => false

/-- Variant of ra_base_envelope with the ALIM disjunct removed, used to
state that the ALIM branch never influences any result. -/
def ra_base_envelope_noalim (th : SLThresholds) (tau d2 rel_alt_ft rel_climb_fps : ℚ) : Bool :=
  match th.ra_tau, th.ra_dmod_m, th.ra_zthr_ft with
  | some rt, some rd, some rz =>
      let range_ok_ra := decide (tau ≤ rt) || decide (d2 ≤ rd * rd)
      let vert_ok_ra :=
        (match vert_tau_s rel_alt_ft rel_climb_fps with
         | .fin vt => decide (vt ≤ rt)
         | .inf => false)
        || decide (|rel_alt_ft| ≤ rz)
      range_ok_ra && vert_ok_ra
  | _, _, _ => false

/-- Inner helper base_ra_kind of classify_contact. -/
def base_ra_kind (rel_alt_ft : ℚ) : AdvisoryType :=
  if |rel_alt_ft| < CROSSING_ALT_FT then
    if rel_alt_ft ≥ 0 then .RA_CROSSING_DESCEND else .RA_CROSSING_CLIMB
  else
    if rel_alt_ft > 0 then .RA_DESCEND
    else if rel_alt_ft < 0 then .RA_CLIMB
    else .RA_CLIMB

/-- Inner helper preventive_ra_kind of classify_contact. -/
def preventive_ra_kind (rel_alt_ft : ℚ) : AdvisoryType :=
  if rel_alt_ft > 0 then .RA_DO_NOT_CLIMB
  else if rel_alt_ft < 0 then .RA_DO_NOT_DESCEND
  else .RA_DO_NOT_CLIMB

/-- Strengthen or weaken step inside the hysteresis branch of
classify_contact: when ra_tau is present, tau < ra_tau / 2 upgrades to
RA_INCREASE_*, tau > ra_tau * 1.2 downgrades to RA_REDUCE_*, matching
the "DESCEND" in kind.name test for the sense. -/
def refine_ra (th : SLThresholds) (tau : ℚ) (kind : AdvisoryType) : AdvisoryType :=
  match th.ra_tau with
  | some rt =>
      if tau < rt / 2 then
        if kind.containsDESCEND then .RA_INCREASE_DESCEND else .RA_INCREASE_CLIMB
      else if tau > rt * (1.2 : ℚ) then
        if kind.containsDESCEND then .RA_REDUCE_DESCEND else .RA_REDUCE_CLIMB
      else kind
  | none => kind

/-- Local variable use_preventive of classify_contact: when ra_tau and
ra_zthr are present, tau_ratio = tau / ra_tau (0 if ra_tau <= 0),
alt_ratio = |rel_alt| / ra_zthr (0 if ra_zthr <= 0), and the preventive
substitution applies iff 0.8 <= tau_ratio <= 1.2 and alt_ratio >= 0.4. -/
def use_preventive (th : SLThresholds) (tau rel_alt_ft : ℚ) : Bool :=
  match th.ra_tau, th.ra_zthr_ft with
  | some rt, some rz =>
      let tau_ratio := if rt > 0 then tau / rt else 0
      let alt_ratio := if rz > 0 then |rel_alt_ft| / rz else 0
      decide ((0.8 : ℚ) ≤ tau_ratio) && decide (tau_ratio ≤ (1.2 : ℚ))
        && decide (alt_ratio ≥ (0.4 : ℚ))
  | _, _ => false

/-- Test isinstance(prev_state, AdvisoryType) and
prev_state.name.startswith("RA_") from classify_contact; None embeds as
none. -/
def prev_is_ra (prev_state : Option AdvisoryType) : Bool :=
  match prev_state with
  | some k => k.isRA
  | none => false

/-- Function classify_contact from tcas/threat.py, returning the
AdvisoryType (the diagnostic reason string of the source is dropped; it
carries no control information).  When the geometry yields an infinite
tau the outer clear gate condition tau > 60.0 is true, so that branch
returns CLEAR exactly as the source does.  All miss-distance
comparisons are by squares (d2 is the squared d_cpa). -/
def classify_contact (own_alt_ft : ℚ) (rel_pos_m rel_vel_mps : Q2)
    (rel_alt_ft rel_climb_fps : ℚ) (prev_state : Option AdvisoryType) : AdvisoryType :=
  match closing_tau_and_dcpa_sq rel_pos_m rel_vel_mps with
  | (.inf, _) => .CLEAR
  | (.fin tau, d2) =>
    if d2 > CLEAR_RANGE_M * CLEAR_RANGE_M ∨ tau > 60 ∨ |rel_alt_ft| > 4000 ∨ tau < 0 then
      .CLEAR
    else
      let ground := decide (own_alt_ft ≤ GROUND_ALT_FT)
      let low_alt_total_inhibit := decide (own_alt_ft ≤ RA_TOTAL_INHIBIT_ALT_FT)
      let th := get_sl_thresholds own_alt_ft
      let is_ta := ta_envelope th tau d2 rel_alt_ft rel_climb_fps
      let base_is_ra :=
        if low_alt_total_inhibit || ground then false
        else ra_base_envelope th tau d2 rel_alt_ft rel_climb_fps
      let hmd_allows_ra := decide (d2 ≤ HMD_RA_M * HMD_RA_M)
      let is_ra := base_is_ra && hmd_allows_ra
      if prev_is_ra prev_state then
        if low_alt_total_inhibit || ground then .CLEAR
        else if hmd_allows_ra && base_is_ra then
          refine_ra th tau (base_ra_kind rel_alt_ft)
        else if !hmd_allows_ra then .CLEAR
        else if !is_ta then .CLEAR
        else .RA_MAINTAIN
      else
        if is_ra then
          if use_preventive th tau rel_alt_ft then preventive_ra_kind rel_alt_ft
          else base_ra_kind rel_alt_ft
        else if is_ta then .TA
        else .CLEAR

/-- Variant of classify_contact whose RA envelope omits the ALIM
disjunct, otherwise identical; compared with classify_contact to show
the ALIM branch is dead. -/
def classify_contact_noalim (own_alt_ft : ℚ) (rel_pos_m rel_vel_mps : Q2)
    (rel_alt_ft rel_climb_fps : ℚ) (prev_state : Option AdvisoryType) : AdvisoryType :=
  match closing_tau_and_dcpa_sq rel_pos_m rel_vel_mps with
  | (.inf, _) => .CLEAR
  | (.fin tau, d2) =>
    if d2 > CLEAR_RANGE_M * CLEAR_RANGE_M ∨ tau > 60 ∨ |rel_alt_ft| > 4000 ∨ tau < 0 then
      .CLEAR
    else
      let ground := decide (own_alt_ft ≤ GROUND_ALT_FT)
      let low_alt_total_inhibit := decide (own_alt_ft ≤ RA_TOTAL_INHIBIT_ALT_FT)
      let th := get_sl_thresholds own_alt_ft
      let is_ta := ta_envelope th tau d2 rel_alt_ft rel_climb_fps
      let base_is_ra :=
        if low_alt_total_inhibit || ground then false
        else ra_base_envelope_noalim th tau d2 rel_alt_ft rel_climb_fps
      let hmd_allows_ra := decide (d2 ≤ HMD_RA_M * HMD_RA_M)
      let is_ra := base_is_ra && hmd_allows_ra
      if prev_is_ra prev_state then
        if low_alt_total_inhibit || ground then .CLEAR
        else if hmd_allows_ra && base_is_ra then
          refine_ra th tau (base_ra_kind rel_alt_ft)
        else if !hmd_allows_ra then .CLEAR
        else if !is_ta then .CLEAR
        else .RA_MAINTAIN
      else
        if is_ra then
          if use_preventive th tau rel_alt_ft then preventive_ra_kind rel_alt_ft
          else base_ra_kind rel_alt_ft
        else if is_ta then .TA
        else .CLEAR


-- ============ Vertical-sense tables (tcas/advisory.py, sim/world.py) ============

/-- Function ra_vertical_direction from tcas/advisory.py: membership in
UP_RAS (RA_CLIMB, RA_INCREASE_CLIMB, RA_REDUCE_DESCEND,
RA_CROSSING_CLIMB, RA_DO_NOT_DESCEND) gives +1, membership in DOWN_RAS
(RA_DESCEND, RA_INCREASE_DESCEND, RA_REDUCE_CLIMB, RA_CROSSING_DESCEND,
RA_DO_NOT_CLIMB) gives -1, anything else 0. -/
def advisory_ra_vertical_direction (kind : AdvisoryType) : Int :=
  match kind with
  | .RA_CLIMB => 1
  | .RA_INCREASE_CLIMB => 1
  | .RA_REDUCE_DESCEND => 1
  | .RA_CROSSING_CLIMB => 1
  | .RA_DO_NOT_DESCEND => 1
  | .RA_DESCEND => -1
  | .RA_INCREASE_DESCEND => -1
  | .RA_REDUCE_CLIMB => -1
  | .RA_CROSSING_DESCEND => -1
  | .RA_DO_NOT_CLIMB => -1
  | _ => 0

/-- Function ra_vertical_direction from sim/world.py: its UP_RAS set is
(RA_CLIMB, RA_INCREASE_CLIMB, RA_CROSSING_CLIMB, RA_DO_NOT_DESCEND),
its DOWN_RAS set is (RA_DESCEND, RA_INCREASE_DESCEND,
RA_CROSSING_DESCEND, RA_DO_NOT_CLIMB), and its NEUTRAL_RAS set is
(RA_MAINTAIN, RA_REDUCE_CLIMB, RA_REDUCE_DESCEND); all getattr guards in
the source resolve to the named variants since every attribute exists.
Membership gives +1 / -1 / 0 in that order, 0 otherwise. -/
def world_ra_vertical_direction (kind : AdvisoryType) : Int :=
  match kind with
  | .RA_CLIMB => 1
  | .RA_INCREASE_CLIMB => 1
  | .RA_CROSSING_CLIMB => 1
  | .RA_DO_NOT_DESCEND => 1
  | .RA_DESCEND => -1
  | .RA_INCREASE_DESCEND => -1
  | .RA_CROSSING_DESCEND => -1
  | .RA_DO_NOT_CLIMB => -1
  | .RA_MAINTAIN => 0
  | .RA_REDUCE_CLIMB => 0
  | .RA_REDUCE_DESCEND => 0
  | _ => 0

-- ============ Tracking and advisory aggregation (tcas/tracking.py, tcas/advisory.py) ============

/-- Advisory dataclass from tcas/models.py. -/
structure Advisory where
  kind : AdvisoryType
  reason : String
deriving DecidableEq, Repr

/-- Kinematic fields of the Aircraft dataclass used by
Tracking.build_tracks. -/
structure AircraftState where
  pos_m : Q2
  vel_mps : Q2
  alt_ft : ℚ
  climb_fps : ℚ
deriving DecidableEq, Repr

/-- One value of the per-ownship track dictionary built by
Tracking.build_tracks: the 4-tuple
(rel_pos_m, rel_vel_mps, rel_alt_ft, rel_climb_fps). -/
abbrev RelTrack := Q2 × Q2 × ℚ × ℚ

/-- Inner loop of Tracking.build_tracks for one ownship: every other
aircraft contributes the 4-tuple of relative position, velocity,
altitude and vertical rate. -/
def build_rels (own : AircraftState) (others : List (String × AircraftState)) :
    List (String × RelTrack) :=
  others.map fun p =>
    (p.1,
      ((p.2.pos_m.1 - own.pos_m.1, p.2.pos_m.2 - own.pos_m.2),
       (p.2.vel_mps.1 - own.vel_mps.1, p.2.vel_mps.2 - own.vel_mps.2),
       p.2.alt_ft - own.alt_ft,
       p.2.climb_fps - own.climb_fps))

/-- Runtime errors of AdvisoryLogic.step, embedding Python exceptions:
tooManyValues is the ValueError raised by the loop header
"for cs, (rel_pos, rel_vel, rel_alt) in rels.items()" when a dictionary
value is a 4-tuple (too many values to unpack, expected 3);
missingRelClimb is the TypeError raised by calling classify_contact
without its required positional argument rel_climb_fps. -/
inductive StepError where
  | tooManyValues
  | missingRelClimb
deriving DecidableEq, Repr

/-- Python 3-target tuple unpacking applied to one track value.  The
values produced by Tracking.build_tracks are 4-tuples
(rel_pos, rel_vel, rel_alt, rel_climb_fps), so unpacking them into the
three targets (rel_pos, rel_vel, rel_alt) raises ValueError; the
embedding makes the arity mismatch explicit. -/
def unpack3 (_t : RelTrack) : Except StepError (Q2 × Q2 × ℚ) :=
  .error .tooManyValues

/-- Method AdvisoryLogic.step from tcas/advisory.py over the track map
of one ownship (dictionary embedded as an association list in insertion
order).  An empty map skips the loop and falls through to the CLEAR
aggregation result.  A non-empty map enters the loop header, whose
3-target unpacking of a 4-tuple track raises ValueError before any
classification runs; were the unpacking to succeed, the call
classify_contact(own.alt_ft, rel_pos, rel_vel, rel_alt,
prev_state=own.advisory.kind) would raise TypeError since the required
positional argument rel_climb_fps is absent.  Exceptions are embedded as
Except errors. -/
def AdvisoryLogic.step (_own_alt_ft : ℚ) (_own_prev : AdvisoryType)
    (rels : List (String × RelTrack)) : Except StepError Advisory :=
  match rels with
  | [] => .ok { kind := .CLEAR, reason := "Clear (no threats)" }
  | (_, t) :: _ =>
    match unpack3 t with
    | .error e => .error e
    | .ok _ => .error .missingRelClimb

-- ============ Command mapper (tcas/advisory.py) ============

/-- Rate-band constants from tcas/advisory.py, in ft/s with
FPM_TO_FPS = 1/60. -/
def VS_CLIMB_NOMINAL_FPS : ℚ := 1800 / 60

/-- Nominal corrective descend rate from tcas/advisory.py. -/
def VS_DESC_NOMINAL_FPS : ℚ := -1800 / 60

/-- Minimum corrective climb rate from tcas/advisory.py. -/
def VS_CLIMB_MIN_FPS : ℚ := 1500 / 60

/-- Maximum corrective descend rate from tcas/advisory.py. -/
def VS_DESC_MAX_FPS : ℚ := -1500 / 60

/-- Maintain-band upper bound from tcas/advisory.py. -/
def VS_MAINTAIN_MAX_UP_FPS : ℚ := 4400 / 60

/-- Maintain-band lower bound from tcas/advisory.py. -/
def VS_MAINTAIN_MIN_DOWN_FPS : ℚ := -4400 / 60

/-- Strengthened climb rate from tcas/advisory.py. -/
def VS_INCREASE_CLIMB_FPS : ℚ := 2500 / 60

/-- Strengthened descend rate from tcas/advisory.py. -/
def VS_INCREASE_DESCEND_FPS : ℚ := -2500 / 60

/-- Reduced-RA vertical rate limit from tcas/advisory.py. -/
def VS_REDUCED_LIMIT_FPS : ℚ := 500 / 60

/-- Fields of the Aircraft dataclass read and written by apply_command. -/
structure AircraftCmd where
  climb_fps : ℚ
  tcas_equipped : Bool
  advisory_kind : AdvisoryType
  control_mode : String
  manual_cmd : Option String
  target_climb_fps : Option ℚ
deriving DecidableEq, Repr

/-- Python expression own.target_climb_fps or default: None and the
falsy value 0.0 both select the default. -/
def orDefault (t : Option ℚ) (d : ℚ) : ℚ :=
  match t with
  | some v => if v = 0 then d else v
  | none => d

/-- Function apply_command from tcas/advisory.py, embedding the mutation
of own as a returned record.  Branch order follows the source: manual
override first, then the non-equipped downgrade of a leaked RA to TA,
then the dispatch on the advisory kind, with the final else branch
acting only in MANUAL mode with a manual command present. -/
def apply_command (own : AircraftCmd) (override_manual : Bool) : AircraftCmd :=
  if own.control_mode = "MANUAL" ∧ own.manual_cmd ≠ none then
    if override_manual then
      match own.manual_cmd with
      | some "CLIMB" =>
          { own with climb_fps := max own.climb_fps (orDefault own.target_climb_fps VS_CLIMB_NOMINAL_FPS) }
      | some "DESCEND" =>
          { own with climb_fps := min own.climb_fps (orDefault own.target_climb_fps VS_DESC_NOMINAL_FPS) }
      | some "MAINTAIN" =>
          { own with climb_fps := own.climb_fps * (0.8 : ℚ) }
      | _ => own
    else own
  else if own.tcas_equipped = false then
    if own.advisory_kind.isRA then { own with advisory_kind := .TA } else own
  else
    match own.advisory_kind with
    | .RA_CLIMB => { own with climb_fps := VS_CLIMB_NOMINAL_FPS }
    | .RA_CROSSING_CLIMB => { own with climb_fps := VS_CLIMB_NOMINAL_FPS }
    | .RA_DESCEND => { own with climb_fps := VS_DESC_NOMINAL_FPS }
    | .RA_CROSSING_DESCEND => { own with climb_fps := VS_DESC_NOMINAL_FPS }
    | .RA_INCREASE_CLIMB =>
        { own with climb_fps := min (max VS_INCREASE_CLIMB_FPS own.climb_fps) VS_MAINTAIN_MAX_UP_FPS }
    | .RA_INCREASE_DESCEND =>
        { own with climb_fps := max (min VS_INCREASE_DESCEND_FPS own.climb_fps) VS_MAINTAIN_MIN_DOWN_FPS }
    | .RA_REDUCE_CLIMB =>
        if own.climb_fps > VS_REDUCED_LIMIT_FPS then
          { own with climb_fps := VS_REDUCED_LIMIT_FPS }
        else own
    | .RA_REDUCE_DESCEND =>
        if own.climb_fps < -VS_REDUCED_LIMIT_FPS then
          { own with climb_fps := -VS_REDUCED_LIMIT_FPS } else own
    | .RA_DO_NOT_CLIMB =>
        let own := if own.climb_fps > 0 then { own with climb_fps := 0 } else own
        if own.climb_fps < -VS_REDUCED_LIMIT_FPS then
          { own with climb_fps := -VS_REDUCED_LIMIT_FPS } else own
    | .RA_DO_NOT_DESCEND =>
        let own := if own.climb_fps < 0 then { own with climb_fps := 0 } else own
        if own.climb_fps > VS_REDUCED_LIMIT_FPS then
          { own with climb_fps := VS_REDUCED_LIMIT_FPS } else own
    | .RA_MAINTAIN =>
        if own.climb_fps > 0 then
          { own with climb_fps := max (min own.climb_fps VS_MAINTAIN_MAX_UP_FPS) VS_CLIMB_MIN_FPS }
        else if own.climb_fps < 0 then
          { own with climb_fps := min (max own.climb_fps VS_MAINTAIN_MIN_DOWN_FPS) VS_DESC_MAX_FPS }
        else own
    | _ =>
        if own.control_mode = "MANUAL" ∧ own.manual_cmd ≠ none then
          match own.manual_cmd with
          | some "CLIMB" =>
              { own with climb_fps := own.climb_fps * (0.7 : ℚ) + (orDefault own.target_climb_fps VS_CLIMB_NOMINAL_FPS) * (0.3 : ℚ) }
          | some "DESCEND" =>
              { own with climb_fps := own.climb_fps * (0.7 : ℚ) + (orDefault own.target_climb_fps VS_DESC_NOMINAL_FPS) * (0.3 : ℚ) }
          | some "MAINTAIN" =>
              { own with climb_fps := own.climb_fps * (0.9 : ℚ) }
          | _ => own
        else own

-- ============ Proximity monitor (tcas/monitor.py) ============

/-- NMACStats dataclass from tcas/monitor.py; the horizontal minimum is
kept as a squared distance (see file header) and both minima start at
float("inf"). -/
structure NMACStats where
  nmac_count : ℕ
  min_horz_sq_m : ExtQ
  min_vert_ft : ExtQ
deriving DecidableEq, Repr

/-- Initial NMACStats as constructed by NMACMonitor.__init__. -/
def NMACStats.init : NMACStats :=
  { nmac_count := 0, min_horz_sq_m := .inf, min_vert_ft := .inf }

/-- Method NMACStats.record from tcas/monitor.py: lower each running
minimum when strictly beaten, then bump the count when is_nmac. -/
def NMACStats.record (s : NMACStats) (horiz_sq_m vert_ft : ℚ) (is_nmac : Bool) :
    NMACStats :=
  let s1 := if ExtQ.qlt horiz_sq_m s.min_horz_sq_m then
    { s with min_horz_sq_m := .fin horiz_sq_m } else s
  let s2 := if ExtQ.qlt vert_ft s1.min_vert_ft then
    { s1 with min_vert_ft := .fin vert_ft } else s1
  if is_nmac then { s2 with nmac_count := s2.nmac_count + 1 } else s2

/-- Method NMACMonitor.compute_metrics from tcas/monitor.py, with the
monitor state passed explicitly: horiz_m = math.hypot(rel_pos) is kept
squared, vert_ft = |rel_alt_ft|, the NMAC flag holds when both
separations are strictly inside the thresholds (the horizontal test by
squares), and the cumulative stats are updated via record. -/
def NMACMonitor.compute_metrics (s : NMACStats) (rel_pos_m rel_vel_mps : Q2)
    (rel_alt_ft : ℚ) : NMACStats × (ℚ × ℚ × ExtQ × ℚ × Bool) :=
  let horiz_sq_m := sqnorm rel_pos_m
  let vert_ft := |rel_alt_ft|
  let td := closing_tau_and_dcpa_sq rel_pos_m rel_vel_mps
  let is_nmac := decide (horiz_sq_m < NMAC_HORZ_M * NMAC_HORZ_M)
    && decide (vert_ft < NMAC_VERT_FT)
  (s.record horiz_sq_m vert_ft is_nmac, (horiz_sq_m, vert_ft, td.1, td.2, is_nmac))

/-- A sequence of compute_metrics calls on one monitor, oldest first. -/
def NMACMonitor.run (s : NMACStats) (inputs : List (Q2 × Q2 × ℚ)) : NMACStats :=
  inputs.foldl (fun st i => (NMACMonitor.compute_metrics st i.1 i.2.1 i.2.2).1) s

-- ================= Shared helper lemmas =================

lemma get_sl_thresholds_ra_alim_none (a : ℚ) :
    (get_sl_thresholds a).ra_alim_ft = none := by
  unfold get_sl_thresholds
  split_ifs <;> rfl

lemma alim_violation_of_none (th : SLThresholds) (ra rc : ℚ)
    (h : th.ra_alim_ft = none) : alim_violation th ra rc = false := by
  unfold alim_violation predicted_miss_ft
  rw [h]
  cases th.ra_tau <;> rfl

lemma ra_base_envelope_eq_noalim (th : SLThresholds) (tau d2 ra rc : ℚ)
    (h : th.ra_alim_ft = none) :
    ra_base_envelope th tau d2 ra rc = ra_base_envelope_noalim th tau d2 ra rc := by
  unfold ra_base_envelope ra_base_envelope_noalim
  rw [alim_violation_of_none th ra rc h]
  cases th.ra_tau <;> cases th.ra_dmod_m <;> cases th.ra_zthr_ft <;>
    simp [Bool.or_false]

-- ================= Claims =================

/-- Claim C10: the thresholds dictionary returned by get_sl_thresholds
never contains an ra_alim_ft entry, so inside classify_contact the
predicted vertical miss is always None, the ALIM violation flag is
always False, and deleting the ALIM disjunct from the RA envelope does
not change any classification result. -/
theorem C10_alim_branch_dead :
    (∀ a : ℚ, (get_sl_thresholds a).ra_alim_ft = none) ∧
    (∀ (th : SLThresholds) (ra rc : ℚ), th.ra_alim_ft = none →
      predicted_miss_ft th ra rc = none ∧ alim_violation th ra rc = false) ∧
    (∀ (own_alt ra rc : ℚ) (p v : Q2) (prev : Option AdvisoryType),
      classify_contact own_alt p v ra rc prev
        = classify_contact_noalim own_alt p v ra rc prev) := by
  refine ⟨get_sl_thresholds_ra_alim_none, ?_, ?_⟩
  · intro th ra rc h
    refine ⟨?_, alim_violation_of_none th ra rc h⟩
    unfold predicted_miss_ft
    rw [h]
    cases th.ra_tau <;> rfl
  · intro own_alt ra rc p v prev
    unfold classify_contact classify_contact_noalim
    cases hc : closing_tau_and_dcpa_sq p v with
    | mk t d2 =>
      cases t with
      | inf => rfl
      | fin tau =>
        simp only [ra_base_envelope_eq_noalim _ _ _ _ _
          (get_sl_thresholds_ra_alim_none own_alt)]

/-- Claim C5 counterexample: the vertical-sense tables of sim/world.py
and tcas/advisory.py disagree at RA_REDUCE_CLIMB (0 versus -1) and at
RA_REDUCE_DESCEND (0 versus +1). -/
theorem C5_counterexample :
    world_ra_vertical_direction .RA_REDUCE_CLIMB = 0 ∧
    advisory_ra_vertical_direction .RA_REDUCE_CLIMB = -1 ∧
    world_ra_vertical_direction .RA_REDUCE_DESCEND = 0 ∧
    advisory_ra_vertical_direction .RA_REDUCE_DESCEND = 1 := by
  refine ⟨rfl, rfl, rfl, rfl⟩

/-- Claim C5 (amended): the two vertical-sense classifications agree on
every AdvisoryType except RA_REDUCE_CLIMB and RA_REDUCE_DESCEND, which
sim/world.py treats as neutral (0) while tcas/advisory.py assigns them
the senses -1 and +1 respectively. -/
theorem C5_senses_agree_except_reduce :
    ∀ k : AdvisoryType, k ≠ .RA_REDUCE_CLIMB → k ≠ .RA_REDUCE_DESCEND →
      world_ra_vertical_direction k = advisory_ra_vertical_direction k := by
  intro k h1 h2
  cases k <;> first
    | rfl
    | exact absurd rfl h1
    | exact absurd rfl h2

/-- Claim C5 witness: the agreement theorem applied at RA_CLIMB. -/
theorem C5_witness :
    world_ra_vertical_direction .RA_CLIMB = advisory_ra_vertical_direction .RA_CLIMB :=
  C5_senses_agree_except_reduce .RA_CLIMB (by decide) (by decide)

/-- Claim C2: for every geometry and every previous state, when
own_alt_ft is at most RA_TOTAL_INHIBIT_ALT_FT (1000 ft) the classifier
never returns an RA variant: the result is CLEAR or TA. -/
theorem C2_low_altitude_inhibit (own_alt ra rc : ℚ) (p v : Q2)
    (prev : Option AdvisoryType) (h : own_alt ≤ RA_TOTAL_INHIBIT_ALT_FT) :
    (classify_contact own_alt p v ra rc prev).isRA = false := by
  unfold classify_contact
  cases hc : closing_tau_and_dcpa_sq p v with
  | mk t d2 =>
    cases t with
    | inf => rfl
    | fin tau =>
      simp only []
      by_cases hg : d2 > CLEAR_RANGE_M * CLEAR_RANGE_M ∨ tau > 60 ∨ |ra| > 4000 ∨ tau < 0
      · rw [if_pos hg]
        rfl
      · rw [if_neg hg]
        have hlow : decide (own_alt ≤ RA_TOTAL_INHIBIT_ALT_FT) = true := decide_eq_true h
        simp only [hlow, Bool.true_or, Bool.or_true, if_true, Bool.false_and,
          Bool.and_false]
        cases hp : prev_is_ra prev
        · simp only [hp, Bool.false_eq_true, if_false, if_true]
          cases ta_envelope (get_sl_thresholds own_alt) tau d2 ra rc <;> rfl
        · simp only [hp, if_true]
          rfl

/-- Claim C2 witness: low-altitude inhibition applied at own_alt = 500 ft
with an otherwise RA-worthy head-on geometry. -/
theorem C2_witness :
    (classify_contact 500 (1000, 0) (-50, 0) 0 0 (some .RA_CLIMB)).isRA = false :=
  C2_low_altitude_inhibit 500 0 0 (1000, 0) (-50, 0) (some .RA_CLIMB)
    (by norm_num [RA_TOTAL_INHIBIT_ALT_FT])

/-- Claim C4: with any previous RA state, whenever the squared predicted
miss distance exceeds the squared HMD_RA_M threshold (d_cpa > 1.3 NM),
classify_contact returns CLEAR regardless of any other condition. -/
theorem C4_hmd_terminates_ra (own_alt ra rc : ℚ) (p v : Q2) (k : AdvisoryType)
    (hk : k.isRA = true)
    (hd : (closing_tau_and_dcpa_sq p v).2 > HMD_RA_M * HMD_RA_M) :
    classify_contact own_alt p v ra rc (some k) = .CLEAR := by
  unfold classify_contact
  cases hc : closing_tau_and_dcpa_sq p v with
  | mk t d2 =>
    rw [hc] at hd
    cases t with
    | inf => rfl
    | fin tau =>
      simp only []
      by_cases hg : d2 > CLEAR_RANGE_M * CLEAR_RANGE_M ∨ tau > 60 ∨ |ra| > 4000 ∨ tau < 0
      · rw [if_pos hg]
      · rw [if_neg hg]
        have hprev : prev_is_ra (some k) = true := hk
        have hhmd : decide (d2 ≤ HMD_RA_M * HMD_RA_M) = false :=
          decide_eq_false (not_le.mpr hd)
        simp only [hprev, hhmd, Bool.and_false, Bool.false_and, Bool.and_self,
          Bool.not_false, if_true, if_false]
        split <;> rfl

/-- Claim C4 witness: previous RA_CLIMB with a beam-aspect geometry whose
squared miss distance 6250000 exceeds the squared HMD threshold. -/
theorem C4_witness :
    classify_contact 10000 (2500, 0) (0, -50) 0 0 (some .RA_CLIMB) = .CLEAR :=
  C4_hmd_terminates_ra 10000 0 0 (2500, 0) (0, -50) .RA_CLIMB rfl
    (by norm_num [closing_tau_and_dcpa_sq, dot, sqnorm, HMD_RA_M, NM_TO_M])

/-- Claim C8: whenever the squared relative speed exceeds 1e-6 and the
returned tau is positive, the squared miss distance at closest approach
is at most the squared current separation (d_cpa never exceeds
|rel_pos|). -/
theorem C8_dcpa_le_range (p v : Q2) (h : dot v v > (1e-6 : ℚ)) (tau : ℚ)
    (ht : (closing_tau_and_dcpa_sq p v).1 = .fin tau) (htau : 0 < tau) :
    (closing_tau_and_dcpa_sq p v).2 ≤ sqnorm p := by
  have hv : ¬(dot v v ≤ (1e-6 : ℚ)) := not_le.mpr h
  have hvpos : 0 < dot v v := lt_trans (by norm_num) h
  unfold closing_tau_and_dcpa_sq
  simp only [hv, if_false, reduceIte]
  have hne : v.1 * v.1 + v.2 * v.2 ≠ 0 := by
    have h0 := hvpos
    unfold dot at h0
    exact ne_of_gt h0
  have key :
      sqnorm (p.1 + v.1 * (-(dot p v) / dot v v), p.2 + v.2 * (-(dot p v) / dot v v))
        = sqnorm p - (dot p v) * (dot p v) / dot v v := by
    unfold sqnorm dot
    field_simp
    ring
  rw [key]
  have hnn : 0 ≤ (dot p v) * (dot p v) / dot v v :=
    div_nonneg (mul_self_nonneg _) (le_of_lt hvpos)
  linarith

/-- Claim C8 witness: the bound applied to a head-on pursuit where the
relative speed is 1 m/s, tau is 1 s and the miss distance is zero. -/
theorem C8_witness : (closing_tau_and_dcpa_sq (1, 0) (-1, 0)).2 ≤ sqnorm (1, 0) :=
  C8_dcpa_le_range (1, 0) (-1, 0) (by norm_num [dot]) 1
    (by norm_num [closing_tau_and_dcpa_sq, dot, sqnorm]) (by norm_num)

lemma ExtQ.le_refl (x : ExtQ) : ExtQ.le x x = true := by
  cases x <;> simp [ExtQ.le]

lemma ExtQ.le_trans {x y z : ExtQ} (h1 : ExtQ.le x y = true)
    (h2 : ExtQ.le y z = true) : ExtQ.le x z = true := by
  cases x <;> cases y <;> cases z <;> simp_all [ExtQ.le] <;> linarith

lemma NMACStats.record_mono (s : NMACStats) (hq vq : ℚ) (b : Bool) :
    s.nmac_count ≤ (s.record hq vq b).nmac_count ∧
    ExtQ.le (s.record hq vq b).min_horz_sq_m s.min_horz_sq_m = true ∧
    ExtQ.le (s.record hq vq b).min_vert_ft s.min_vert_ft = true := by
  rcases s with ⟨c, mh, mv⟩
  unfold NMACStats.record
  cases mh <;> cases mv <;> cases b <;>
    simp [ExtQ.qlt, ExtQ.le] <;> split_ifs <;>
    simp_all [ExtQ.le] <;> first
      | (constructor <;> linarith)
      | linarith

/-- Claim C7: across any sequence of compute_metrics calls on one
monitor, the NMAC count never decreases and the running minima of the
(squared) horizontal separation and of the vertical separation never
increase; no monitor operation resets them. -/
theorem C7_monitor_monotone (s : NMACStats) (inputs : List (Q2 × Q2 × ℚ)) :
    s.nmac_count ≤ (NMACMonitor.run s inputs).nmac_count ∧
    ExtQ.le (NMACMonitor.run s inputs).min_horz_sq_m s.min_horz_sq_m = true ∧
    ExtQ.le (NMACMonitor.run s inputs).min_vert_ft s.min_vert_ft = true := by
  induction inputs generalizing s with
  | nil => exact ⟨Nat.le_refl _, ExtQ.le_refl _, ExtQ.le_refl _⟩
  | cons i rest ih =>
    have hrun : NMACMonitor.run s (i :: rest)
        = NMACMonitor.run (NMACMonitor.compute_metrics s i.1 i.2.1 i.2.2).1 rest := rfl
    have hstep :
        (NMACMonitor.compute_metrics s i.1 i.2.1 i.2.2).1
          = s.record (sqnorm i.1) |i.2.2|
              (decide (sqnorm i.1 < NMAC_HORZ_M * NMAC_HORZ_M)
                && decide (|i.2.2| < NMAC_VERT_FT)) := rfl
    obtain ⟨hc, hh, hv⟩ := NMACStats.record_mono s (sqnorm i.1) |i.2.2|
      (decide (sqnorm i.1 < NMAC_HORZ_M * NMAC_HORZ_M) && decide (|i.2.2| < NMAC_VERT_FT))
    obtain ⟨ic, ihh, ihv⟩ := ih ((NMACMonitor.compute_metrics s i.1 i.2.1 i.2.2).1)
    rw [hrun]
    refine ⟨le_trans hc ?_, ExtQ.le_trans ihh ?_, ExtQ.le_trans ihv ?_⟩
    · rw [hstep] at ic ⊢
      exact ic
    · rw [hstep]
      exact hh
    · rw [hstep]
      exact hv

lemma base_ra_kind_isRA (ra : ℚ) : (base_ra_kind ra).isRA = true := by
  unfold base_ra_kind
  split_ifs <;> rfl

lemma preventive_ra_kind_isRA (ra : ℚ) : (preventive_ra_kind ra).isRA = true := by
  unfold preventive_ra_kind
  split_ifs <;> rfl

lemma base_ra_kind_ne_maintain (ra : ℚ) : base_ra_kind ra ≠ .RA_MAINTAIN := by
  unfold base_ra_kind
  split_ifs <;> simp

lemma refine_ra_base_spec (th : SLThresholds) (tau ra : ℚ) :
    (refine_ra th tau (base_ra_kind ra)).isRA = true ∧
    refine_ra th tau (base_ra_kind ra) ≠ .RA_MAINTAIN := by
  unfold refine_ra
  cases th.ra_tau with
  | none => exact ⟨base_ra_kind_isRA ra, base_ra_kind_ne_maintain ra⟩
  | some rt =>
    simp only []
    by_cases h1 : tau < rt / 2
    · rw [if_pos h1]
      split_ifs <;> exact ⟨rfl, by simp⟩
    · rw [if_neg h1]
      by_cases h2 : tau > rt * (1.2 : ℚ)
      · rw [if_pos h2]
        split_ifs <;> exact ⟨rfl, by simp⟩
      · rw [if_neg h2]
        exact ⟨base_ra_kind_isRA ra, base_ra_kind_ne_maintain ra⟩

/-- Claim C6 (amended): for a previous state that is not an RA, whenever
classify_contact returns TA the vertical TA condition of the source
holds, namely vertical tau at most TA tau or |rel_alt| at most TA ZTHR
(the TA envelope is the range condition conjoined with this
disjunction, not with the ZTHR bound alone). -/
theorem C6_ta_requires_vertical_condition (own_alt ra rc : ℚ) (p v : Q2)
    (prev : Option AdvisoryType) (hprev : prev_is_ra prev = false)
    (hTA : classify_contact own_alt p v ra rc prev = .TA) :
    vert_ok_ta (get_sl_thresholds own_alt) ra rc = true := by
  unfold classify_contact at hTA
  cases hc : closing_tau_and_dcpa_sq p v with
  | mk t d2 =>
    rw [hc] at hTA
    cases t with
    | inf => exact absurd hTA (by simp)
    | fin tau =>
      simp only [hprev, Bool.false_eq_true, if_false] at hTA
      by_cases hg : d2 > CLEAR_RANGE_M * CLEAR_RANGE_M ∨ tau > 60 ∨ |ra| > 4000 ∨ tau < 0
      · rw [if_pos hg] at hTA
        exact absurd hTA (by simp)
      · rw [if_neg hg] at hTA
        by_cases hira :
            ((if (decide (own_alt ≤ RA_TOTAL_INHIBIT_ALT_FT)
                  || decide (own_alt ≤ GROUND_ALT_FT)) = true then false
              else ra_base_envelope (get_sl_thresholds own_alt) tau d2 ra rc)
              && decide (d2 ≤ HMD_RA_M * HMD_RA_M)) = true
        · rw [if_pos hira] at hTA
          have hisra : (if use_preventive (get_sl_thresholds own_alt) tau ra = true
              then preventive_ra_kind ra else base_ra_kind ra).isRA = true := by
            split_ifs
            · exact preventive_ra_kind_isRA ra
            · exact base_ra_kind_isRA ra
          rw [hTA] at hisra
          exact absurd hisra (by simp [AdvisoryType.isRA])
        · rw [if_neg hira] at hTA
          by_cases hta :
              ta_envelope (get_sl_thresholds own_alt) tau d2 ra rc = true
          · have h2 := hta
            unfold ta_envelope at h2
            exact (Bool.and_eq_true _ _ |>.mp h2).2
          · rw [if_neg hta] at hTA
            exact absurd hTA (by simp)

/-- Claim C6 counterexample: at own altitude 10000 ft a contact with
relative altitude 1000 ft (above the TA ZTHR of 850 ft) but a small
vertical tau is classified TA, so the TA envelope does not require
|rel_alt| below the TA ZTHR. -/
theorem C6_counterexample :
    classify_contact 10000 (1000, 0) (-50, 0) 1000 (-30) none = .TA ∧
    (get_sl_thresholds 10000).ta_zthr_ft = 850 ∧ ¬((1000 : ℚ) ≤ 850) := by
  refine ⟨?_, ?_, by norm_num⟩
  · norm_num [classify_contact, closing_tau_and_dcpa_sq, dot, sqnorm, get_sl_thresholds,
      ta_envelope, range_ok_ta, vert_ok_ta, vert_tau_s, ra_base_envelope, alim_violation,
      predicted_miss_ft, use_preventive, base_ra_kind, prev_is_ra, CLEAR_RANGE_M,
      HMD_RA_M, NM_TO_M, GROUND_ALT_FT, RA_TOTAL_INHIBIT_ALT_FT, CROSSING_ALT_FT]
  · norm_num [get_sl_thresholds]

/-- Claim C6 witness: the amended theorem applied at a TA produced with
relative altitude 700 ft inside the TA ZTHR. -/
theorem C6_witness : vert_ok_ta (get_sl_thresholds 10000) 700 0 = true :=
  C6_ta_requires_vertical_condition 10000 700 0 (1000, 0) (-50, 0) none rfl
    (by norm_num [classify_contact, closing_tau_and_dcpa_sq, dot, sqnorm, get_sl_thresholds,
      ta_envelope, range_ok_ta, vert_ok_ta, vert_tau_s, ra_base_envelope, alim_violation,
      predicted_miss_ft, use_preventive, base_ra_kind, prev_is_ra, CLEAR_RANGE_M,
      HMD_RA_M, NM_TO_M, GROUND_ALT_FT, RA_TOTAL_INHIBIT_ALT_FT, CROSSING_ALT_FT])

/-- Claim C3 (amended): with a previous RA state and a geometry that
passes the outer clear gate, stays above the low-altitude inhibit
region, passes the HMD filter and still satisfies the TA envelope,
classify_contact returns an RA variant, and that variant is RA_MAINTAIN
exactly when the RA envelope no longer holds.  (Without the added
gate/low-altitude/HMD provisos the original claim is false: those three
paths return CLEAR even while the TA envelope holds.) -/
theorem C3_hysteresis_keeps_ra (own_alt ra rc tau d2 : ℚ) (p v : Q2)
    (k : AdvisoryType) (hk : k.isRA = true)
    (hc : closing_tau_and_dcpa_sq p v = (.fin tau, d2))
    (hg : ¬(d2 > CLEAR_RANGE_M * CLEAR_RANGE_M ∨ tau > 60 ∨ |ra| > 4000 ∨ tau < 0))
    (hlow : ¬(own_alt ≤ RA_TOTAL_INHIBIT_ALT_FT))
    (hhmd : d2 ≤ HMD_RA_M * HMD_RA_M)
    (hta : ta_envelope (get_sl_thresholds own_alt) tau d2 ra rc = true) :
    (classify_contact own_alt p v ra rc (some k)).isRA = true ∧
    (classify_contact own_alt p v ra rc (some k) = .RA_MAINTAIN ↔
      ra_base_envelope (get_sl_thresholds own_alt) tau d2 ra rc = false) := by
  have hground : ¬(own_alt ≤ GROUND_ALT_FT) := by
    intro hle
    exact hlow (le_trans hle (by norm_num [GROUND_ALT_FT, RA_TOTAL_INHIBIT_ALT_FT]))
  have hLG : (decide (own_alt ≤ RA_TOTAL_INHIBIT_ALT_FT)
      || decide (own_alt ≤ GROUND_ALT_FT)) = false := by
    simp [hlow, hground]
  have hH : decide (d2 ≤ HMD_RA_M * HMD_RA_M) = true := decide_eq_true hhmd
  unfold classify_contact
  rw [hc]
  simp only [if_neg hg, hk, hLG, hH, Bool.false_eq_true, if_false, if_true,
    Bool.and_true, Bool.true_and, Bool.not_true, prev_is_ra]
  by_cases hbase : ra_base_envelope (get_sl_thresholds own_alt) tau d2 ra rc = true
  · rw [if_pos hbase]
    obtain ⟨h1, h2⟩ := refine_ra_base_spec (get_sl_thresholds own_alt) tau ra
    refine ⟨h1, ?_⟩
    rw [hbase]
    simp [h2]
  · rw [if_neg hbase]
    rw [hta]
    simp only [Bool.not_true, Bool.false_eq_true, if_false]
    refine ⟨rfl, ?_⟩
    simp [Bool.eq_false_iff.mpr, Bool.not_eq_true] at hbase ⊢
    exact hbase

/-- Claim C3 counterexample: previous state RA_CLIMB and a geometry
whose TA envelope is satisfied (tau = 0 within TA tau, level flight
within TA ZTHR) yet whose squared miss distance 6250000 fails the HMD
filter, so classify_contact returns CLEAR, contradicting the claim that
a TA-satisfying tick never downgrades an RA to CLEAR. -/
theorem C3_counterexample :
    prev_is_ra (some .RA_CLIMB) = true ∧
    closing_tau_and_dcpa_sq (2500, 0) (0, -50) = (.fin 0, 6250000) ∧
    ta_envelope (get_sl_thresholds 10000) 0 6250000 0 0 = true ∧
    classify_contact 10000 (2500, 0) (0, -50) 0 0 (some .RA_CLIMB) = .CLEAR := by
  refine ⟨rfl, ?_, ?_, ?_⟩
  · norm_num [closing_tau_and_dcpa_sq, dot, sqnorm]
  · norm_num [ta_envelope, range_ok_ta, vert_ok_ta, vert_tau_s, get_sl_thresholds,
      NM_TO_M]
  · norm_num [classify_contact, closing_tau_and_dcpa_sq, dot, sqnorm, get_sl_thresholds,
      ta_envelope, range_ok_ta, vert_ok_ta, vert_tau_s, ra_base_envelope, alim_violation,
      predicted_miss_ft, use_preventive, base_ra_kind, prev_is_ra, CLEAR_RANGE_M,
      HMD_RA_M, NM_TO_M, GROUND_ALT_FT, RA_TOTAL_INHIBIT_ALT_FT, CROSSING_ALT_FT,
      AdvisoryType.isRA]

/-- Claim C3 witness: the amended hysteresis theorem applied to a
head-on geometry at 10000 ft with previous state RA_CLIMB. -/
theorem C3_witness :
    (classify_contact 10000 (1000, 0) (-50, 0) 0 0 (some .RA_CLIMB)).isRA = true ∧
    (classify_contact 10000 (1000, 0) (-50, 0) 0 0 (some .RA_CLIMB) = .RA_MAINTAIN ↔
      ra_base_envelope (get_sl_thresholds 10000) 20 0 0 0 = false) :=
  C3_hysteresis_keeps_ra 10000 0 0 20 0 (1000, 0) (-50, 0) .RA_CLIMB rfl
    (by norm_num [closing_tau_and_dcpa_sq, dot, sqnorm])
    (by norm_num [CLEAR_RANGE_M])
    (by norm_num [RA_TOTAL_INHIBIT_ALT_FT])
    (by norm_num [HMD_RA_M, NM_TO_M])
    (by norm_num [ta_envelope, range_ok_ta, vert_ok_ta, vert_tau_s, get_sl_thresholds,
      NM_TO_M])

/-- Claim C9 counterexample: a TCAS-equipped aircraft in AUTO mode with
no manual command and advisory CLEAR keeps its vertical rate of
10 ft/s unchanged under apply_command; no 0.98 damping is applied. -/
theorem C9_counterexample :
    (apply_command
      { climb_fps := 10, tcas_equipped := true, advisory_kind := .CLEAR,
        control_mode := "AUTO", manual_cmd := none, target_climb_fps := none }
      false).climb_fps = 10 ∧
    (10 : ℚ) ≠ (0.98 : ℚ) * 10 := by
  constructor
  · rfl
  · norm_num

/-- Claim C9 (amended): for every TCAS-equipped aircraft in AUTO control
mode with no manual command whose advisory kind is CLEAR or TA,
apply_command returns the aircraft unchanged; in particular the vertical
rate is not decayed. -/
theorem C9_clear_ta_keeps_rate (own : AircraftCmd) (om : Bool)
    (hmode : own.control_mode = "AUTO") (hcmd : own.manual_cmd = none)
    (heq : own.tcas_equipped = true)
    (hkind : own.advisory_kind = .CLEAR ∨ own.advisory_kind = .TA) :
    apply_command own om = own ∧ (apply_command own om).climb_fps = own.climb_fps := by
  have hbranch : ¬(own.control_mode = "MANUAL" ∧ own.manual_cmd ≠ none) := by
    intro h
    exact h.2 hcmd
  have hself : apply_command own om = own := by
    unfold apply_command
    rw [if_neg hbranch, heq]
    simp only [Bool.true_eq_false, if_false]
    rcases hkind with h | h <;> rw [h] <;> simp [hbranch]
  exact ⟨hself, by rw [hself]⟩

/-- Claim C9 witness: the amended theorem applied to a concrete CLEAR
aircraft climbing at 10 ft/s. -/
theorem C9_witness :
    apply_command
      { climb_fps := 10, tcas_equipped := true, advisory_kind := .TA,
        control_mode := "AUTO", manual_cmd := none, target_climb_fps := none }
      true
    = { climb_fps := 10, tcas_equipped := true, advisory_kind := .TA,
        control_mode := "AUTO", manual_cmd := none, target_climb_fps := none } :=
  (C9_clear_ta_keeps_rate _ true rfl rfl rfl (Or.inr rfl)).1

/-- Claim C1: AdvisoryLogic.step applied to a non-empty track map of the
shape produced by Tracking.build_tracks raises rather than returning an
Advisory: the loop header unpacks each 4-tuple track into three names,
a ValueError.  Evaluated here on a single ownship/intruder pair. -/
theorem C1_step_raises_on_built_tracks :
    AdvisoryLogic.step 10000 .CLEAR
      (build_rels
        { pos_m := (0, 0), vel_mps := (0, 0), alt_ft := 10000, climb_fps := 0 }
        [("INTR1",
          { pos_m := (1000, 0), vel_mps := (-50, 0), alt_ft := 10000, climb_fps := 0 })])
      = .error .tooManyValues := rfl

lemma step_error_on_any_nonempty (a : ℚ) (k : AdvisoryType)
    (rels : List (String × RelTrack)) (h : rels ≠ []) :
    AdvisoryLogic.step a k rels = .error .tooManyValues := by
  cases rels with
  | nil => exact absurd rfl h
  | cons hd tl => rfl
